import Mathlib

/-!
Verification development for the Tun-Eye browser extension frontend
(src/Frontend/background.js, src/Frontend/Side Panel/sidepanel.js).

The JavaScript is shallowly embedded: DOM state relevant to the side
panel (page visibility, the bottom navigation indicator, the preview
area, the result area, button state) is modelled as explicit Lean
structures, and each event handler becomes a pure state-transition
function translated line by line from the source.  JavaScript numbers
are modelled as exact rationals extended with NaN and signed infinity
(`JNum`) where the special values matter (the chart-axis computation),
and as plain rationals / reals elsewhere.
-/

namespace TunEye

/-! ### Navigation (sidepanel.js, `navigateTo` / `updateNavIndicator`)

The document contains four elements with class `page`:
`page-intro`, `page-select`, `page-preview`, `page-result`.
`NavState.hidden` is the list of their `hidden`-class flags, aligned
with `pageIds`; `activeIndex` models the bottom navigation indicator
(0 = no list item active, k = item k active), exactly the
`activeIndex` variable of `updateNavIndicator`. -/

def pageIds : List String := ["page-intro", "page-select", "page-preview", "page-result"]

structure NavState where
  hidden : List Bool
  activeIndex : Nat
deriving DecidableEq

/-- Value of the `activeIndex` variable in `updateNavIndicator`:
0 for `page-intro` (and anything unrecognised), 1 for `page-select`,
2 for `page-preview`, 3 for `page-result`. -/
def indicatorIndex (pageId : String) : Nat :=
  if pageId = "page-select" then 1
  else if pageId = "page-preview" then 2
  else if pageId = "page-result" then 3
  else 0

/-- `navigateTo(pageId)`: first every `.page` element gets the `hidden`
class; then `getElementById(pageId)` is consulted, and only if the page
exists is it un-hidden and the indicator updated (`updateNavIndicator`).
For an id that is not one of the page elements the target lookup fails,
so all pages stay hidden and the indicator is left untouched. -/
def navigateTo (st : NavState) (pageId : String) : NavState :=
  if pageId ∈ pageIds then
    { hidden := pageIds.map (fun pid => decide (pid ≠ pageId)),
      activeIndex := indicatorIndex pageId }
  else
    { st with hidden := st.hidden.map (fun _ => true) }

/-- The ids of the pages currently not carrying the `hidden` class. -/
def visiblePages (st : NavState) : List String :=
  ((pageIds.zip st.hidden).filter (fun p => !p.2)).map Prod.fst

/-! ### JavaScript numbers for the keyword-chart axis computation

`renderResultCharts` computes
  `maxAbsScore = Math.max(...scores.map(Math.abs))`
  `if (maxAbsScore > 0.1) chartMax = 1.0;`
  `else { magnitude = Math.pow(10, Math.floor(Math.log10(maxAbsScore)));`
  `       chartMax = Math.ceil(maxAbsScore / magnitude) * magnitude; }`
  `if (chartMax === 0) chartMax = 0.01;`
Finite doubles are idealised as exact rationals; NaN and the signed
infinities are represented explicitly because `Math.log10(0) = -Infinity`
and `0 / 0 = NaN` are load-bearing in this computation. -/

inductive JNum where
  | nan : JNum
  | inf : Bool → JNum
  | num : ℚ → JNum
deriving DecidableEq

/-- Result type of `Math.floor` applied to a JS number: an integer,
NaN, or a signed infinity. -/
inductive JExp where
  | nan : JExp
  | pInf : JExp
  | nInf : JExp
  | int : ℤ → JExp
deriving DecidableEq

/-- `Math.abs`. -/
def jsAbs : JNum → JNum
  | .nan => .nan
  | .inf _ => .inf true
  | .num q => .num (if q < 0 then -q else q)

/-- Two-argument `Math.max` (NaN-propagating, as in JS). -/
def jsMax : JNum → JNum → JNum
  | .nan, _ => .nan
  | _, .nan => .nan
  | .inf true, _ => .inf true
  | _, .inf true => .inf true
  | .inf false, b => b
  | a, .inf false => a
  | .num a, .num b => .num (max a b)

/-- `Math.max(...xs)`: the spread call folds pairwise with identity
`-Infinity` (which is also the result for an empty argument list). -/
def jsMaxList (xs : List JNum) : JNum :=
  xs.foldl jsMax (.inf false)

/-- The strict `>` comparison of JS (false whenever NaN is involved). -/
def jsGt : JNum → JNum → Bool
  | .nan, _ => false
  | _, .nan => false
  | .inf true, .inf true => false
  | .inf true, _ => true
  | _, .inf true => false
  | .inf false, _ => false
  | .num _, .inf false => true
  | .num a, .num b => if b < a then true else false

/-- `Math.floor(Math.log10 x)` fused: for a positive rational the result
is the exact `Int.log 10`, for `±0` it is `-Infinity` (because
`Math.log10(0) = -Infinity` and `Math.floor(-Infinity) = -Infinity`),
for a negative argument or NaN it is NaN, and `log10(+Infinity) = +Infinity`. -/
def jsFloorLog10 : JNum → JExp
  | .nan => .nan
  | .inf true => .pInf
  | .inf false => .nan
  | .num q => if q = 0 then .nInf else if 0 < q then .int (Int.log 10 q) else .nan

/-- `Math.pow(10, e)` for an exponent produced by `Math.floor`:
`10 ^ (-Infinity) = 0`, `10 ^ (+Infinity) = Infinity`, NaN propagates. -/
def jsPow10 : JExp → JNum
  | .nan => .nan
  | .pInf => .inf true
  | .nInf => .num 0
  | .int z => .num ((10 : ℚ) ^ z)

/-- JS division: `0 / 0 = NaN`, `a / 0 = ±Infinity` for `a ≠ 0`,
NaN propagates, division by an infinity yields 0. -/
def jsDiv : JNum → JNum → JNum
  | .nan, _ => .nan
  | _, .nan => .nan
  | .num a, .num b =>
      if b = 0 then (if a = 0 then .nan else .inf (if 0 < a then true else false))
      else .num (a / b)
  | .inf s, .num b => .inf (if 0 ≤ b then s else !s)
  | .num _, .inf _ => .num 0
  | .inf _, .inf _ => .nan

/-- `Math.ceil` (NaN and infinities pass through). -/
def jsCeil : JNum → JNum
  | .nan => .nan
  | .inf s => .inf s
  | .num q => .num ⌈q⌉

/-- JS multiplication: NaN propagates, `0 * Infinity = NaN`. -/
def jsMul : JNum → JNum → JNum
  | .nan, _ => .nan
  | _, .nan => .nan
  | .inf s, .inf t => .inf (s == t)
  | .inf s, .num q => if q = 0 then .nan else .inf (if 0 < q then s else !s)
  | .num q, .inf s => if q = 0 then .nan else .inf (if 0 < q then s else !s)
  | .num a, .num b => .num (a * b)

/-- The JS strict equality test `x === 0` (false for NaN and infinities). -/
def jsEqZero : JNum → Bool
  | .num q => if q = 0 then true else false
  | _ => false

/-- `maxAbsScore` of `renderResultCharts`. -/
def maxAbsScore (scores : List JNum) : JNum :=
  jsMaxList (scores.map jsAbs)

/-- The `chartMax` computation of `renderResultCharts` (dynamic scaling
for the keyword chart), including the trailing `chartMax === 0` fallback. -/
def chartMax (scores : List JNum) : JNum :=
  let maxAbs := maxAbsScore scores
  let cm :=
    if jsGt maxAbs (.num (1/10)) then .num 1
    else
      let magnitude := jsPow10 (jsFloorLog10 maxAbs)
      jsMul (jsCeil (jsDiv maxAbs magnitude)) magnitude
  if jsEqZero cm then .num (1/100) else cm

/-- Characterisation used to evaluate `Int.log` at concrete rationals:
`log b r = e` as soon as `b ^ e ≤ r < b ^ (e + 1)`. -/
theorem int_log_eq_of {r : ℚ} {e : ℤ} (hr : 0 < r)
    (h1 : (10 : ℚ) ^ e ≤ r) (h2 : r < (10 : ℚ) ^ (e + 1)) :
    Int.log 10 r = e := by
  have hb : 1 < 10 := by norm_num
  have hle : e ≤ Int.log 10 r := (Int.zpow_le_iff_le_log hb hr).1 h1
  have hlt : Int.log 10 r < e + 1 := (Int.lt_zpow_iff_log_lt hb hr).1 h2
  omega

/-! ### Response normalisation (sidepanel.js, `formattedData`)

`formattedData.confidence` applies `Math.round(parseFloat(x) * 100)` to
the two confidence entries and pins `neutral` to 0; each word entry gets
`score = Math.tanh(parseFloat(weight))`.  The decimal confidence values
are modelled as exact rationals, the keyword weights as reals (the
domain of `tanh`). -/

/-- `Math.round`: round half toward positive infinity. -/
def jsRound (q : ℚ) : ℤ := ⌊q + 1/2⌋

/-- The `confidence` object of the raw `AnalysisResult`
(`{"Real News": float, "Fake News": float}`). -/
structure RawConfidence where
  realNews : ℚ
  fakeNews : ℚ
deriving DecidableEq

/-- The `confidence` part of the formatted chart data. -/
structure Confidence where
  fake : ℤ
  neutral : ℤ
  real : ℤ
deriving DecidableEq

/-- The confidence part of `formattedData`:
`fake = Math.round(parseFloat(confidence["Fake News"]) * 100)`,
`neutral = 0`, `real = Math.round(parseFloat(confidence["Real News"]) * 100)`. -/
def formattedConfidence (c : RawConfidence) : Confidence :=
  { fake := jsRound (c.fakeNews * 100), neutral := 0, real := jsRound (c.realNews * 100) }

/-- One entry of the raw `words` array (`parseFloat(item.weight)` already
applied, so the weight is a number). -/
structure RawWord where
  word : String
  weight : ℝ

/-- One entry of `formattedData.keywords`. -/
structure Keyword where
  word : String
  score : ℝ
  weight : ℝ

/-- The normalisation applied to each keyword weight:
`Math.tanh(raw)`. -/
noncomputable def tanhScore (raw : ℝ) : ℝ := Real.tanh raw

/-- The `keywords` part of `formattedData`: for each item,
`score = Math.tanh(raw)` with the raw weight kept alongside. -/
noncomputable def formattedKeywords (words : List RawWord) : List Keyword :=
  words.map (fun item => { word := item.word, score := tanhScore item.weight, weight := item.weight })

/-- Raw response body of the remote service (`analysisData`). -/
structure AnalysisResult where
  confidence : RawConfidence
  words : List RawWord

/-- Chart-ready data (`formattedData`). -/
structure ChartData where
  confidence : Confidence
  keywords : List Keyword

/-- `formattedData` of the analyze click handler. -/
noncomputable def formattedData (a : AnalysisResult) : ChartData :=
  { confidence := formattedConfidence a.confidence, keywords := formattedKeywords a.words }

/-! ### Result status (sidepanel.js, `renderResultCharts`)

`rawReal = data.confidence.real / 100; rawFake = data.confidence.fake / 100;`
`statusClass = rawReal >= rawFake ? 'real-news' : 'fake-news'` — the inputs
are the already-rounded integer percentages. -/

inductive Status where
  | realNews : Status
  | fakeNews : Status
deriving DecidableEq

/-- The `statusClass` computation of `renderResultCharts`. -/
def statusClass (conf : Confidence) : Status :=
  if (conf.real : ℚ) / 100 ≥ (conf.fake : ℚ) / 100 then .realNews else .fakeNews

/-! ### Preview area and the analyze click handler (sidepanel.js)

The preview container `content-display` holds either nothing, a
`blockquote` with the selected text, or a `div.preview-image-wrapper`
containing an `img`.  The analyze handler re-derives the content to send
from that first child, aborts when the derived `value` is falsy (absent
or the empty string), and otherwise runs the POST / render / error / `finally`
sequence. -/

inductive CType where
  | text : CType
  | image : CType
deriving DecidableEq

/-- First child of the `content-display` container. -/
inductive PreviewContent where
  | empty : PreviewContent
  | textBlock (text : String) : PreviewContent
  | imageBlock (src : String) : PreviewContent
deriving DecidableEq

/-- The request object built by the analyze handler (`contentToAnalyze`
with its `type` and `value` fields). -/
structure AnalysisRequest where
  ctype : CType
  value : String
deriving DecidableEq

/-- The `contentToAnalyze` derivation from the preview area's first
child (`none` models the initial empty object, which has no `value`). -/
def deriveContentToAnalyze : PreviewContent → Option AnalysisRequest
  | .empty => none
  | .textBlock t => some { ctype := .text, value := t }
  | .imageBlock s => some { ctype := .image, value := s }

/-- Whether the derived content value is JS-falsy (no content, or the
text / image source is the empty string) — the condition under which
`if (!contentToAnalyze.value) { ...; return; }` fires. -/
def hasEmptyValue : PreviewContent → Bool
  | .empty => true
  | .textBlock t => t.isEmpty
  | .imageBlock s => s.isEmpty

/-- What the `result-content` region currently shows. -/
inductive ResultView where
  | initial : ResultView
  | spinner : ResultView
  | charts (data : ChartData) : ResultView
  | errorMsg (message : String) : ResultView

/-- The panel's mutable UI state touched by the handlers under study. -/
structure PanelUI where
  nav : NavState
  preview : PreviewContent
  resultView : ResultView
  analyzeEnabled : Bool
  navButtonVisible : Bool
  selectionModeActive : Bool

/-- Possible outcomes of the awaited `fetch` / `response.json()` pair:
a parsed body, a transport failure, a non-ok status (the handler throws
`Server responded with status: ...`), or a malformed body that makes the
parsing or field access throw. -/
inductive FetchOutcome where
  | success (a : AnalysisResult) : FetchOutcome
  | networkError (msg : String) : FetchOutcome
  | serverError (status : ℕ) : FetchOutcome
  | malformed (msg : String) : FetchOutcome

/-- Result of one run of the analyze click handler: the final UI state
and the request that was POSTed, if any. -/
structure AnalyzeRun where
  ui : PanelUI
  posted : Option AnalysisRequest

/-- One run of the analyze click handler, from the click to the point
where the `finally` block and the scheduled render callbacks have run.
The early-return path leaves the UI untouched and issues no request;
otherwise the handler disables the button, navigates to `page-result`,
shows the spinner placeholder with the nav button hidden, then applies
the outcome (charts on success, the inline error message on any caught
error, the nav button made visible again in both cases) and finally
re-enables the button. -/
noncomputable def analyzeClick (ui : PanelUI) (outcome : FetchOutcome) : AnalyzeRun :=
  match deriveContentToAnalyze ui.preview with
  | none => { ui := ui, posted := none }
  | some req =>
    if req.value = "" then { ui := ui, posted := none }
    else
      let ui1 := { ui with
        analyzeEnabled := false,
        nav := navigateTo ui.nav "page-result",
        navButtonVisible := false,
        resultView := .spinner }
      let ui2 :=
        match outcome with
        | .success a =>
            { ui1 with resultView := .charts (formattedData a), navButtonVisible := true }
        | .networkError msg =>
            { ui1 with resultView := .errorMsg msg, navButtonVisible := true }
        | .serverError s =>
            { ui1 with
              resultView := .errorMsg ("Server responded with status: " ++ toString s),
              navButtonVisible := true }
        | .malformed msg =>
            { ui1 with resultView := .errorMsg msg, navButtonVisible := true }
      { ui := { ui2 with analyzeEnabled := true }, posted := some req }

/-! ### The persisted slot and its listeners
(background.js `chrome.contextMenus.onClicked`, sidepanel.js
`chrome.storage.onChanged`)

The `contentToAnalyze` storage key holds either a well-formed content
object or the empty object `{}` written by the background script when a
context-menu click carries neither text nor an image; an absent /
removed key is `none`. -/

/-- A value stored in the `contentToAnalyze` slot. -/
inductive StoredValue where
  | emptyObj : StoredValue
  | content (ctype : CType) (data : String) : StoredValue
deriving DecidableEq

/-- `displayContentForPreview`: clears the container, then appends a
`blockquote` for text or an image wrapper for images; any other shape
(such as the empty object) leaves the container empty. -/
def displayContentForPreview : StoredValue → PreviewContent
  | .emptyObj => .empty
  | .content .text d => .textBlock d
  | .content .image d => .imageBlock d

/-- The `chrome.storage.onChanged` listener of the side panel, for a
change to the `contentToAnalyze` key: on a truthy new value it clears
selection mode, renders the preview, navigates to `page-preview`, and
removes the key (the returned flag); a null / removed new value does
nothing and issues no write. -/
def storageChanged (ui : PanelUI) (ns : String) (newValue : Option StoredValue) :
    PanelUI × Bool :=
  if ns = "local" then
    match newValue with
    | some c =>
        ({ ui with
            selectionModeActive := false,
            preview := displayContentForPreview c,
            nav := navigateTo ui.nav "page-preview" }, true)
    | none => (ui, false)
  else (ui, false)

/-- The fields of the context-menu click info used by the background
script.  `srcUrl` is populated by the browser when `mediaType` is
`"image"`. -/
structure ClickInfo where
  selectionText : Option String
  mediaType : Option String
  srcUrl : String

/-- JS truthiness of an optional string (`undefined` and `""` are falsy). -/
def jsTruthy : Option String → Bool
  | none => false
  | some s => !s.isEmpty

/-- The `chrome.contextMenus.onClicked` listener of the background
script: builds `dataToAnalyze` (the empty object when the click carries
neither selected text nor an image), always writes it to the slot, and
always opens the side panel (the returned flag). -/
def contextMenuClicked (info : ClickInfo) : StoredValue × Bool :=
  let dataToAnalyze :=
    if jsTruthy info.selectionText then
      StoredValue.content .text (info.selectionText.getD "")
    else if info.mediaType = some "image" then
      StoredValue.content .image info.srcUrl
    else
      StoredValue.emptyObj
  (dataToAnalyze, true)

/-! ## Theorems -/

/-- Claim C1, as stated, is false: `navigateTo` adds the `hidden` class
to every page before looking the target up, so navigating to an id not
among the known pages does not leave the previously visible page
unchanged — here the visible set goes from `[page-intro]` to `[]`. -/
theorem navigateTo_unknown_not_noop :
    visiblePages (navigateTo ⟨[false, true, true, true], 0⟩ "page-bogus") ≠
      visiblePages ⟨[false, true, true, true], 0⟩ := by
  decide

/-- Claim C1 (amended): navigating to an id not among the known pages
hides every page (the set of visible pages becomes empty rather than
staying what it was) and does not alter the positional indicator. -/
theorem navigateTo_unknown_hides_all (st : NavState) (pid : String)
    (h : pid ∉ pageIds) :
    navigateTo st pid = { st with hidden := st.hidden.map (fun _ => true) } ∧
    visiblePages (navigateTo st pid) = [] ∧
    (navigateTo st pid).activeIndex = st.activeIndex := by
  have hif : navigateTo st pid = { st with hidden := st.hidden.map (fun _ => true) } := by
    simp [navigateTo, h]
  refine ⟨hif, ?_, by rw [hif]⟩
  rw [hif]
  have hall : ∀ p ∈ pageIds.zip (st.hidden.map fun _ => true), ¬ ((!p.2) = true) := by
    intro p hp
    have h2 := (List.of_mem_zip hp).2
    rw [List.mem_map] at h2
    obtain ⟨a, -, ha⟩ := h2
    simp [← ha]
  simp only [visiblePages, List.filter_eq_nil_iff.mpr hall, List.map_nil]

/-- Witness for the amended claim C1 at a concrete state and id. -/
theorem navigateTo_unknown_hides_all_witness :
    visiblePages (navigateTo ⟨[false, true, true, true], 0⟩ "page-zzz") = [] ∧
    (navigateTo ⟨[false, true, true, true], 0⟩ "page-zzz").activeIndex = 0 :=
  ⟨(navigateTo_unknown_hides_all ⟨[false, true, true, true], 0⟩ "page-zzz" (by decide)).2.1,
   (navigateTo_unknown_hides_all ⟨[false, true, true, true], 0⟩ "page-zzz" (by decide)).2.2⟩

/-- Claim C2: with every keyword score exactly zero the maximum absolute
score is 0, but the resulting axis ceiling is NaN, not the fallback 0.01:
`Math.log10(0) = -Infinity`, `Math.pow(10, -Infinity) = 0`, `0 / 0 = NaN`,
and `NaN === 0` is false, so the `chartMax = 0.01` fallback — whose own
comment says it should fire when all scores are zero — is skipped. -/
theorem chartMax_all_zero_is_nan :
    maxAbsScore [JNum.num 0, JNum.num 0, JNum.num 0] = JNum.num 0 ∧
    chartMax [JNum.num 0, JNum.num 0, JNum.num 0] = JNum.nan ∧
    JNum.nan ≠ JNum.num (1/100) := by
  refine ⟨?_, ?_, by simp⟩
  · norm_num [maxAbsScore, jsMaxList, jsAbs, jsMax]
  · norm_num [chartMax, maxAbsScore, jsMaxList, jsAbs, jsMax, jsGt, jsFloorLog10,
      jsPow10, jsDiv, jsCeil, jsMul, jsEqZero]

/-- Claim C3, as stated, is false at a maximum absolute score of 0.05:
the computed ceiling is 0.05 (`magnitude = 0.01`, `ceil(0.05/0.01) = 5`,
`5 * 0.01 = 0.05`), not the claimed 0.1. -/
theorem chartMax_at_one_twentieth :
    chartMax [JNum.num (1/20)] = JNum.num (1/20) ∧
    JNum.num ((1:ℚ)/20) ≠ JNum.num (1/10) := by
  constructor
  · have hlog : Int.log 10 ((1:ℚ)/20) = -2 :=
      int_log_eq_of (by norm_num) (by norm_num) (by norm_num)
    norm_num [chartMax, maxAbsScore, jsMaxList, jsAbs, jsMax, jsGt, jsFloorLog10,
      jsPow10, jsDiv, jsCeil, jsMul, jsEqZero, hlog]
  · simp only [ne_eq, JNum.num.injEq]
    norm_num

/-- Claim C3 (amended): for a positive maximum absolute score the axis
ceiling is 1.0 when the score exceeds 0.1 and otherwise the score
rounded up to the next multiple of `10 ^ floor(log10 maxAbs)`; in
particular 0.15 yields 1.0 and 0.05 yields 0.05 (not 0.1). -/
theorem chartMax_pos (q : ℚ) (h : 0 < q) :
    chartMax [JNum.num q] =
      (if 1/10 < q then JNum.num 1
       else JNum.num (⌈q / (10:ℚ) ^ (Int.log 10 q)⌉ * (10:ℚ) ^ (Int.log 10 q))) ∧
    chartMax [JNum.num (3/20)] = JNum.num 1 ∧
    chartMax [JNum.num (1/20)] = JNum.num (1/20) := by
  refine ⟨?_, ?_, ?_⟩
  · have hmax : maxAbsScore [.num q] = .num q := by
      simp [maxAbsScore, jsMaxList, jsAbs, jsMax, not_lt.mpr h.le]
    by_cases h1 : 1/10 < q
    · rw [if_pos h1]
      have hgt : jsGt (JNum.num q) (JNum.num (1/10)) = true := by
        simp only [jsGt]; rw [if_pos h1]
      simp only [chartMax, hmax, hgt, if_true]
      norm_num [jsEqZero]
    · rw [if_neg h1]
      have hgt : jsGt (JNum.num q) (JNum.num (1/10)) = false := by
        simp only [jsGt]; rw [if_neg h1]
      have hlog2 : jsFloorLog10 (JNum.num q) = .int (Int.log 10 q) := by
        simp [jsFloorLog10, h.ne', h]
      have hm : (0:ℚ) < (10:ℚ) ^ (Int.log 10 q) := zpow_pos (by norm_num) _
      have hceil : (0:ℚ) < (⌈q / (10:ℚ) ^ (Int.log 10 q)⌉ : ℚ) := by
        exact_mod_cast Int.ceil_pos.mpr (div_pos h hm)
      have hne : (⌈q / (10:ℚ) ^ (Int.log 10 q)⌉ : ℚ) * (10:ℚ) ^ (Int.log 10 q) ≠ 0 :=
        (mul_pos hceil hm).ne'
      simp only [chartMax, hmax, hgt, Bool.false_eq_true, if_false, hlog2, jsPow10,
        jsDiv, if_neg hm.ne', jsCeil, jsMul, jsEqZero, if_neg hne]
  · norm_num [chartMax, maxAbsScore, jsMaxList, jsAbs, jsMax, jsGt, jsFloorLog10,
      jsPow10, jsDiv, jsCeil, jsMul, jsEqZero]
  · have hlog : Int.log 10 ((1:ℚ)/20) = -2 :=
      int_log_eq_of (by norm_num) (by norm_num) (by norm_num)
    norm_num [chartMax, maxAbsScore, jsMaxList, jsAbs, jsMax, jsGt, jsFloorLog10,
      jsPow10, jsDiv, jsCeil, jsMul, jsEqZero, hlog]

/-- Witness for the amended claim C3 at the concrete score 0.05. -/
theorem chartMax_pos_witness :
    chartMax [JNum.num (1/20)] =
      (if (1:ℚ)/10 < 1/20 then JNum.num 1
       else JNum.num (⌈(1/20 : ℚ) / (10:ℚ) ^ (Int.log 10 ((1:ℚ)/20))⌉ *
          (10:ℚ) ^ (Int.log 10 ((1:ℚ)/20)))) :=
  (chartMax_pos (1/20) (by norm_num)).1

/-- Evaluation rule for `jsRound` at concrete rationals. -/
theorem jsRound_eq {q : ℚ} {n : ℤ} (h1 : (n:ℚ) ≤ q + 1/2) (h2 : q + 1/2 < n + 1) :
    jsRound q = n := by
  unfold jsRound
  exact Int.floor_eq_iff.mpr ⟨h1, h2⟩

/-- Claim C4: the rendered status is `real-news` exactly when the
rounded real percentage is at least the rounded fake percentage (the
code divides both rounded values by 100 before comparing, which cannot
change the order); a 50/50 tie gives `real-news`, fake 60 / real 40
gives `fake-news`, and the comparison uses the rounded values: raw
confidences 0.496 (real) / 0.504 (fake) both round to 50 and are
classified `real-news` although the raw real value is below the raw
fake value. -/
theorem statusClass_spec :
    (∀ conf : Confidence, statusClass conf = .realNews ↔ conf.fake ≤ conf.real) ∧
    statusClass ⟨60, 0, 40⟩ = .fakeNews ∧
    statusClass ⟨50, 0, 50⟩ = .realNews ∧
    statusClass (formattedConfidence ⟨0.496, 0.504⟩) = .realNews ∧
    (0.496 : ℚ) < 0.504 := by
  have h100 : (0:ℚ) < 100 := by norm_num
  refine ⟨fun conf => ?_, by norm_num [statusClass], by norm_num [statusClass], ?_, by norm_num⟩
  · rw [statusClass]
    split
    case isTrue hcond =>
      have hle : (conf.fake : ℚ) ≤ conf.real := (div_le_div_iff_of_pos_right h100).1 hcond
      exact iff_of_true rfl (by exact_mod_cast hle)
    case isFalse hcond =>
      refine iff_of_false (fun hcontra => Status.noConfusion hcontra) (fun hle => hcond ?_)
      have : (conf.fake : ℚ) ≤ conf.real := by exact_mod_cast hle
      exact (div_le_div_iff_of_pos_right h100).2 this
  · have hreal : jsRound ((0.496:ℚ) * 100) = 50 := jsRound_eq (by norm_num) (by norm_num)
    have hfake : jsRound ((0.504:ℚ) * 100) = 50 := jsRound_eq (by norm_num) (by norm_num)
    simp only [formattedConfidence, hreal, hfake]
    norm_num [statusClass]

/-- Claim C5: normalisation rounds each confidence independently and
pins `neutral` to 0: the crafted result with real 0.734 / fake 0.266
yields real 73, fake 27, neutral 0; `neutral` is 0 for every input; and
the two roundings are independent, so the rounded percentages need not
sum to 100 even when the raw confidences sum to 1 (0.495 / 0.505 gives
50 + 51 = 101). -/
theorem formattedConfidence_spec :
    formattedConfidence ⟨0.734, 0.266⟩ = ⟨27, 0, 73⟩ ∧
    (∀ c : RawConfidence, (formattedConfidence c).neutral = 0) ∧
    (∃ c : RawConfidence, c.realNews + c.fakeNews = 1 ∧
      (formattedConfidence c).real + (formattedConfidence c).fake ≠ 100) := by
  refine ⟨?_, fun c => rfl, ⟨⟨0.495, 0.505⟩, by norm_num, ?_⟩⟩
  · have hfake : jsRound ((0.266:ℚ) * 100) = 27 := jsRound_eq (by norm_num) (by norm_num)
    have hreal : jsRound ((0.734:ℚ) * 100) = 73 := jsRound_eq (by norm_num) (by norm_num)
    simp only [formattedConfidence, hfake, hreal]
  · have hreal : jsRound ((0.495:ℚ) * 100) = 50 := jsRound_eq (by norm_num) (by norm_num)
    have hfake : jsRound ((0.505:ℚ) * 100) = 51 := jsRound_eq (by norm_num) (by norm_num)
    simp only [formattedConfidence, hfake, hreal]
    norm_num

/-- Claim C6: the normalised keyword score `tanh(weight)` lies strictly
between -1 and 1 for every real weight, and `tanh(0) = 0`. -/
theorem tanhScore_bounds :
    ∀ w : ℝ, (-1 < tanhScore w ∧ tanhScore w < 1) ∧ tanhScore 0 = 0 := by
  intro w
  refine ⟨?_, by simp [tanhScore, Real.tanh_zero]⟩
  have hc : 0 < Real.cosh w := Real.cosh_pos w
  have hsq : Real.sinh w ^ 2 < Real.cosh w ^ 2 := by
    rw [Real.cosh_sq]
    linarith
  have habs : |Real.sinh w| < Real.cosh w := abs_lt_of_sq_lt_sq hsq hc.le
  have htanh : |tanhScore w| < 1 := by
    rw [tanhScore, Real.tanh_eq_sinh_div_cosh, abs_div, abs_of_pos hc]
    exact (div_lt_one hc).2 habs
  exact abs_lt.1 htanh

/-- Navigating to `page-result` always yields the same state: only the
result page visible, indicator on item 3. -/
theorem navigateTo_result (st : NavState) :
    navigateTo st "page-result" = ⟨[true, true, true, false], 3⟩ := rfl

/-- Navigating to `page-preview` always yields the same state: only the
preview page visible, indicator on item 2. -/
theorem navigateTo_preview (st : NavState) :
    navigateTo st "page-preview" = ⟨[true, true, false, true], 2⟩ := rfl

/-- A string with `isEmpty = false` is not the empty string. -/
theorem ne_empty_of_isEmpty_false {s : String} (h : s.isEmpty = false) : s ≠ "" :=
  fun he => absurd (he ▸ h) (by decide)

/-- Claim C7: when the value derived from the preview area is empty (no
content, or an empty text / image source) the analyze click returns
early — the UI is untouched and no request is POSTed; when it is
non-empty, a request with that non-empty value is POSTed. -/
theorem analyzeClick_empty_guard (ui : PanelUI) (oc : FetchOutcome) :
    (hasEmptyValue ui.preview = true → analyzeClick ui oc = ⟨ui, none⟩) ∧
    (hasEmptyValue ui.preview = false →
      ∃ r, (analyzeClick ui oc).posted = some r ∧ r.value ≠ "") := by
  obtain ⟨nav, pv, rv, ae, nbv, sm⟩ := ui
  cases pv with
  | empty =>
    exact ⟨fun _ => rfl, fun h => absurd h (by simp [hasEmptyValue])⟩
  | textBlock t =>
    constructor
    · intro h
      have ht : t = "" := (String.isEmpty_iff t).1 h
      simp [analyzeClick, deriveContentToAnalyze, ht]
    · intro h
      have ht : t ≠ "" := ne_empty_of_isEmpty_false h
      exact ⟨⟨.text, t⟩, by simp [analyzeClick, deriveContentToAnalyze, ht], ht⟩
  | imageBlock s =>
    constructor
    · intro h
      have hs : s = "" := (String.isEmpty_iff s).1 h
      simp [analyzeClick, deriveContentToAnalyze, hs]
    · intro h
      have hs : s ≠ "" := ne_empty_of_isEmpty_false h
      exact ⟨⟨.image, s⟩, by simp [analyzeClick, deriveContentToAnalyze, hs], hs⟩

/-- Witness for claim C7: an empty preview aborts with no POST, and a
non-empty text preview POSTs its non-empty value. -/
theorem analyzeClick_empty_guard_witness :
    analyzeClick
        ⟨⟨[true, true, false, true], 2⟩, .empty, .initial, true, true, false⟩
        (.networkError "boom") =
      ⟨⟨⟨[true, true, false, true], 2⟩, .empty, .initial, true, true, false⟩, none⟩ ∧
    ∃ r, (analyzeClick
        ⟨⟨[true, true, false, true], 2⟩, .textBlock "hello", .initial, true, true, false⟩
        (.networkError "boom")).posted = some r ∧ r.value ≠ "" :=
  ⟨(analyzeClick_empty_guard
      ⟨⟨[true, true, false, true], 2⟩, .empty, .initial, true, true, false⟩
      (.networkError "boom")).1 rfl,
   (analyzeClick_empty_guard
      ⟨⟨[true, true, false, true], 2⟩, .textBlock "hello", .initial, true, true, false⟩
      (.networkError "boom")).2 rfl⟩

/-- Claim C8: whenever the analyze pipeline actually runs, every outcome
— success, transport failure, non-ok status, malformed body — ends with
the analyze button re-enabled, the nav (retry) button visible, and only
the result page visible with its indicator set; errors become a single
inline error message and success becomes the rendered charts. -/
theorem analyzeClick_ends_interactive (ui : PanelUI) (oc : FetchOutcome)
    (h : hasEmptyValue ui.preview = false) :
    (analyzeClick ui oc).ui.analyzeEnabled = true ∧
    (analyzeClick ui oc).ui.navButtonVisible = true ∧
    visiblePages (analyzeClick ui oc).ui.nav = ["page-result"] ∧
    (analyzeClick ui oc).ui.nav.activeIndex = 3 ∧
    (∀ a, oc = .success a →
      (analyzeClick ui oc).ui.resultView = .charts (formattedData a)) ∧
    (∀ m, oc = .networkError m →
      (analyzeClick ui oc).ui.resultView = .errorMsg m) ∧
    (∀ s, oc = .serverError s →
      (analyzeClick ui oc).ui.resultView =
        .errorMsg ("Server responded with status: " ++ toString s)) ∧
    (∀ m, oc = .malformed m →
      (analyzeClick ui oc).ui.resultView = .errorMsg m) := by
  obtain ⟨nav, pv, rv, ae, nbv, sm⟩ := ui
  have hrun : ∀ req : AnalysisRequest, req.value ≠ "" →
      deriveContentToAnalyze pv = some req →
      analyzeClick ⟨nav, pv, rv, ae, nbv, sm⟩ oc =
        ⟨{ nav := ⟨[true, true, true, false], 3⟩,
           preview := pv,
           resultView :=
             match oc with
             | .success a => .charts (formattedData a)
             | .networkError m => .errorMsg m
             | .serverError s => .errorMsg ("Server responded with status: " ++ toString s)
             | .malformed m => .errorMsg m,
           analyzeEnabled := true,
           navButtonVisible := true,
           selectionModeActive := sm }, some req⟩ := by
    intro req hne hder
    cases oc <;>
      simp [analyzeClick, hder, hne, navigateTo_result]
  cases pv with
  | empty => exact absurd h (by simp [hasEmptyValue])
  | textBlock t =>
    have ht : t ≠ "" := ne_empty_of_isEmpty_false h
    have := hrun ⟨.text, t⟩ ht rfl
    rw [this]
    cases oc <;> simp [visiblePages, pageIds]
  | imageBlock s =>
    have hs : s ≠ "" := ne_empty_of_isEmpty_false h
    have := hrun ⟨.image, s⟩ hs rfl
    rw [this]
    cases oc <;> simp [visiblePages, pageIds]

/-- Witness for claim C8 at a failing outcome: a network error ends on
the result page with the button re-enabled, the retry control visible,
and the inline error message shown. -/
theorem analyzeClick_ends_interactive_witness :
    (analyzeClick
        ⟨⟨[true, true, false, true], 2⟩, .textBlock "hello", .initial, true, true, false⟩
        (.networkError "boom")).ui.analyzeEnabled = true ∧
    (analyzeClick
        ⟨⟨[true, true, false, true], 2⟩, .textBlock "hello", .initial, true, true, false⟩
        (.networkError "boom")).ui.navButtonVisible = true ∧
    visiblePages (analyzeClick
        ⟨⟨[true, true, false, true], 2⟩, .textBlock "hello", .initial, true, true, false⟩
        (.networkError "boom")).ui.nav = ["page-result"] ∧
    (analyzeClick
        ⟨⟨[true, true, false, true], 2⟩, .textBlock "hello", .initial, true, true, false⟩
        (.networkError "boom")).ui.resultView = .errorMsg "boom" :=
  have h := analyzeClick_ends_interactive
    ⟨⟨[true, true, false, true], 2⟩, .textBlock "hello", .initial, true, true, false⟩
    (.networkError "boom") rfl
  ⟨h.1, h.2.1, h.2.2.1, h.2.2.2.2.2.1 "boom" rfl⟩

/-- Claim C9: for every panel state and every stored value, a change
event carrying a non-null value clears selection mode, renders the
value in the preview area, force-navigates to `page-preview` (only the
preview page visible, indicator on item 2) regardless of the current
page, and issues the slot-clearing removal (the `true` flag); the
removal's own change event (a null new value) changes nothing and
issues no further write, so each stored value is consumed at most once. -/
theorem storageChanged_spec :
    (∀ (ui : PanelUI) (c : StoredValue),
      storageChanged ui "local" (some c) =
        ({ ui with
            selectionModeActive := false,
            preview := displayContentForPreview c,
            nav := ⟨[true, true, false, true], 2⟩ }, true)) ∧
    (∀ ui : PanelUI, storageChanged ui "local" none = (ui, false)) ∧
    visiblePages ⟨[true, true, false, true], 2⟩ = ["page-preview"] :=
  ⟨fun _ _ => rfl, fun _ => rfl, rfl⟩

/-- Claim C10: a context-menu click carrying neither selected text nor
an image still writes a value — the empty object — to the slot and still
opens the panel; that value being non-null, the panel's storage listener
treats it as new content and force-navigates to `page-preview` with an
empty preview area (and clears the slot). -/
theorem contextMenuClicked_no_content (info : ClickInfo) (ui : PanelUI)
    (h1 : jsTruthy info.selectionText = false)
    (h2 : info.mediaType ≠ some "image") :
    contextMenuClicked info = (.emptyObj, true) ∧
    (storageChanged ui "local" (some (contextMenuClicked info).1)).1.preview = .empty ∧
    (storageChanged ui "local" (some (contextMenuClicked info).1)).1.nav =
      ⟨[true, true, false, true], 2⟩ ∧
    (storageChanged ui "local" (some (contextMenuClicked info).1)).2 = true := by
  have hdata : contextMenuClicked info = (.emptyObj, true) := by
    simp [contextMenuClicked, h1, h2]
  refine ⟨hdata, ?_, ?_, ?_⟩ <;>
    rw [hdata] <;>
    simp [storageChanged, displayContentForPreview, navigateTo_preview]

/-- Witness for claim C10: a click with no selection text and no media
type writes the empty object, opens the panel, and drives the listener
to an empty preview page. -/
theorem contextMenuClicked_no_content_witness :
    contextMenuClicked ⟨none, none, ""⟩ = (.emptyObj, true) ∧
    (storageChanged
        ⟨⟨[false, true, true, true], 0⟩, .empty, .initial, true, true, false⟩
        "local" (some (contextMenuClicked ⟨none, none, ""⟩).1)).1.preview = .empty ∧
    (storageChanged
        ⟨⟨[false, true, true, true], 0⟩, .empty, .initial, true, true, false⟩
        "local" (some (contextMenuClicked ⟨none, none, ""⟩).1)).1.nav =
      ⟨[true, true, false, true], 2⟩ ∧
    (storageChanged
        ⟨⟨[false, true, true, true], 0⟩, .empty, .initial, true, true, false⟩
        "local" (some (contextMenuClicked ⟨none, none, ""⟩).1)).2 = true :=
  contextMenuClicked_no_content ⟨none, none, ""⟩
    ⟨⟨[false, true, true, true], 0⟩, .empty, .initial, true, true, false⟩
    rfl (by simp)

end TunEye
